import Mathlib

/-!
Shallow embedding of the thermostat desktop client (src/main.rs) and proofs
about its debounced configuration-update coordinator, its config conversion
boundary, its API-response application, its poll loop and its options loading.

Modelling conventions:
* `f32` values are modelled as exact rationals (`Rat`); the verified
  properties only copy temperatures or add the constant step, and never
  depend on floating-point rounding.
* Rust `Option` becomes Lean `Option`; a Rust panic (an `unwrap` of `None`
  or of an `Err`) becomes the `Except.error` case of the modelled function.
* `Instant`s are modelled as natural numbers of milliseconds on a global
  monotone clock; `Duration`s as natural numbers of milliseconds.
* Side effects are made explicit: a fired outbound PATCH request becomes a
  `Fire` record, a log line becomes a `String` in a returned list or option.
-/

namespace Thermostat

/-- The temperature step added or subtracted per arrow-key press
(`TEMPERATURE_STEP`, 0.5 in the source). -/
def TEMPERATURE_STEP : Rat := 1 / 2

/-- The debounce margin (`UPDATE_MARGIN`) of 250 milliseconds. -/
def UPDATE_MARGIN : Nat := 250

/-- The periodic poll interval (`UPDATE_INTERVAL`) of 15 seconds, in
milliseconds. -/
def UPDATE_INTERVAL : Nat := 15000

/-- `ThermostatConfig` from src/main.rs: the locally authoritative
thermostat configuration. `target_temp` is `f32` and `co2_target` is
`Option<i32>` in the source. -/
structure ThermostatConfig where
  master_switch : Bool
  force : Bool
  target_temp : Rat
  co2_target : Option Int
  deriving DecidableEq, Repr

/-- The slint-generated `Config` struct; its fields are pinned by the two
`From` conversion impls in src/main.rs (lines 314-335), which read and
write exactly these five fields. -/
structure Config where
  master_switch : Bool
  force : Bool
  target_temp : Rat
  require_co2 : Bool
  co2_target : Int
  deriving DecidableEq, Repr

/-- `impl From<Config> for ThermostatConfig` (src/main.rs lines 314-323). -/
def ThermostatConfig.fromConfig (cfg : Config) : ThermostatConfig :=
  { master_switch := cfg.master_switch
    force := cfg.force
    target_temp := cfg.target_temp
    co2_target := if cfg.require_co2 then some cfg.co2_target else none }

/-- `impl From<ThermostatConfig> for Config` (src/main.rs lines 325-335):
`require_co2 := co2_target.is_some()` and
`co2_target := co2_target.unwrap_or(500)`. -/
def Config.fromThermostatConfig (cfg : ThermostatConfig) : Config :=
  { master_switch := cfg.master_switch
    force := cfg.force
    target_temp := cfg.target_temp
    require_co2 := cfg.co2_target.isSome
    co2_target := cfg.co2_target.getD 500 }

/-- The slint-generated `State` struct; its fields are pinned by
`impl From<APIResponseStateData> for State` in src/main.rs (lines 358-367). -/
structure State where
  available : Bool
  current_temp : Rat
  co2 : Int
  is_heating : Bool
  deriving DecidableEq, Repr

/-- `APIResponseStateData` from src/main.rs (lines 350-356). -/
structure APIResponseStateData where
  available : Bool
  temperature : Rat
  co2 : Int
  is_heating : Bool
  deriving DecidableEq, Repr

/-- `impl From<APIResponseStateData> for State` (src/main.rs lines
358-367). -/
def State.fromApi (s : APIResponseStateData) : State :=
  { available := s.available
    current_temp := s.temperature
    co2 := s.co2
    is_heating := s.is_heating }

/-- `APIResponseData` from src/main.rs (lines 344-348). -/
structure APIResponseData where
  config : Option ThermostatConfig
  state : APIResponseStateData
  deriving DecidableEq, Repr

/-- `APIResponse` from src/main.rs (lines 337-342): the response envelope. -/
structure APIResponse where
  success : Bool
  data : Option APIResponseData
  error : Option String
  deriving DecidableEq, Repr

/-- The mutable `Singletons` global of the slint UI as used by src/main.rs:
the reactive store holding the config and the device state. -/
structure Singletons where
  config : Config
  state : State
  deriving DecidableEq, Repr

/-- The panic message of `Option::unwrap` on `None`, standing for the panic
itself in the model. -/
def unwrapNoneMsg : String := "called unwrap on a None value"

/-- `try_apply_response` (src/main.rs lines 271-281), as a function of the
UI store: on `success` it unwraps `resp.data` (panicking when absent) and
replaces only the device state; otherwise it unwraps `resp.error`
(panicking when absent) and logs it. The returned pair is the new store and
the optional logged error string; `Except.error` models a panic. -/
def try_apply_response (ui : Singletons) (resp : APIResponse) :
    Except String (Singletons × Option String) :=
  if resp.success then
    match resp.data with
    | some d => Except.ok ({ ui with state := State.fromApi d.state }, none)
    | none => Except.error unwrapNoneMsg
  else
    match resp.error with
    | some e => Except.ok (ui, some e)
    | none => Except.error unwrapNoneMsg

/-- Log prefix of the patch failure branch of `update_config`
(src/main.rs line 266). -/
def patchErrMsg : String := "Error sending API request: "

/-- Log prefix of the poll failure branch of `start_ui_updater`
(src/main.rs line 230). -/
def pollErrMsg : String := "Could not get metrics from API: "

/-- The response-handling part of `update_config` (src/main.rs lines
257-269), applied to the result of the PATCH request: a network error is
only logged, otherwise the response is applied via `try_apply_response`. -/
def update_config (ui : Singletons) (res : Except String APIResponse) :
    Except String (Singletons × Option String) :=
  match res with
  | Except.ok resp => try_apply_response ui resp
  | Except.error e => Except.ok (ui, some (patchErrMsg ++ e))

/-- The poll loop body of `start_ui_updater` (src/main.rs lines 218-234),
run over the list of successive tick results: each network error is logged
and the loop continues with the store unchanged; each received response is
applied via `try_apply_response`. Returns the final store and the log
lines; `Except.error` models a panic inside a tick. -/
def start_ui_updater (ui : Singletons) :
    List (Except String APIResponse) → Except String (Singletons × List String)
  | [] => Except.ok (ui, [])
  | Except.error e :: rest => do
      let r ← start_ui_updater ui rest
      Except.ok (r.1, (pollErrMsg ++ e) :: r.2)
  | Except.ok resp :: rest => do
      let s ← try_apply_response ui resp
      let r ← start_ui_updater s.1 rest
      Except.ok (r.1, s.2.toList ++ r.2)

/-- The slint-generated `PhysicalPosition` as serialized by
`PhysicalPositionRemote` (src/main.rs lines 386-391). -/
structure PhysicalPosition where
  x : Int
  y : Int
  deriving DecidableEq, Repr

/-- The slint-generated `AppOptions` as serialized by `AppOptionsRemote`
(src/main.rs lines 393-397). Modelled from the spec: the slint UI files
(`ui/*.slint`) that declare `AppOptions` are not under src/; the spec gives
it the single field `on_top : bool`. -/
structure AppOptions where
  on_top : Bool
  deriving DecidableEq, Repr

/-- Modelled from the spec: `AppOptions::default()` is the derived default
of the slint-generated struct (all-`false`), declared in the `ui/*.slint`
files that are not under src/. -/
def AppOptions.default : AppOptions := { on_top := false }

/-- `Options` from src/main.rs (lines 369-375). -/
structure Options where
  window_pos : PhysicalPosition
  app_options : AppOptions
  deriving DecidableEq, Repr

/-- `impl Default for Options` (src/main.rs lines 377-384). -/
def Options.default : Options :=
  { window_pos := { x := 190, y := 190 }
    app_options := AppOptions.default }

/-- The options-loading block of `main` (src/main.rs lines 41-52):
`fileContents` is the file contents when the options file exists, `none`
when it is missing; `from_str` is the JSON deserializer
(`serde_json::from_str`). A missing file yields the defaults; an existing
file is parsed, a parse error is logged and then `options.unwrap()` is
called on the `Err`, which panics; the panic is the `Except.error` case. -/
def load_options (fileContents : Option String)
    (from_str : String → Except String Options) : Except String Options :=
  (fileContents.map from_str).getD (Except.ok Options.default)

/-- An outbound update request ("the update fires"): its time in
milliseconds, whether it was fired by the immediate branch (as opposed to a
debounce timer that ran to completion), and the config it carries, read
from the UI store at fire time. -/
structure Fire where
  time : Nat
  immediate : Bool
  cfg : ThermostatConfig
  deriving DecidableEq, Repr

/-- The captured state of the `on_request_config_change` closure of
`register_target_temp_handler` (src/main.rs lines 107-144), together with
the current local config: `last` is the `last` Instant, `pending` is the
deadline of the retained not-yet-fired debounce task (`task`), when one is
live, and `cfg` is the current local config held by the UI store. -/
structure CoordState where
  last : Nat
  pending : Option Nat
  cfg : ThermostatConfig
  deriving DecidableEq, Repr

/-- One invocation of the `on_request_config_change` closure (src/main.rs
lines 113-143) at time `t`, after the local edit has set the config to `c`:
a pending timer whose deadline has already passed fired at its deadline,
carrying the config current at that moment (the spawned task reads
`get_config()` only after its sleep); a still-live pending timer is
aborted. Then `do_delay = last.elapsed() < UPDATE_MARGIN` is computed,
`last` is set to now, and either a new timer for `t + UPDATE_MARGIN` is
retained, or the update fires immediately with nothing retained. Returns
the new closure state and the fires that occurred. -/
def on_request_config_change (s : CoordState) (t : Nat)
    (c : ThermostatConfig) : CoordState × List Fire :=
  let flushed : List Fire :=
    match s.pending with
    | some d => if d < t then [{ time := d, immediate := false, cfg := s.cfg }] else []
    | none => []
  if t - s.last < UPDATE_MARGIN then
    ({ last := t, pending := some (t + UPDATE_MARGIN), cfg := c }, flushed)
  else
    ({ last := t, pending := none, cfg := c },
      flushed ++ [{ time := t, immediate := true, cfg := c }])

/-- Processes a chronological list of change-intents, each given as the
intent time and the config value the edit has just stored, threading the
coordinator state and collecting the fires. -/
def processIntents (s : CoordState) :
    List (Nat × ThermostatConfig) → CoordState × List Fire
  | [] => (s, [])
  | (t, c) :: rest =>
    let r := on_request_config_change s t c
    let r' := processIntents r.1 rest
    (r'.1, r.2 ++ r'.2)

/-- After the last change-intent, a still-retained debounce timer runs to
its deadline undisturbed and fires, reading the config current at fire
time. -/
def finishPending (s : CoordState) : List Fire :=
  match s.pending with
  | some d => [{ time := d, immediate := false, cfg := s.cfg }]
  | none => []

/-- The complete run of the debounce coordinator on a chronological list of
change-intents, observed until quiescence: the list of all outbound update
requests fired. -/
def runCoordinator (s : CoordState) (events : List (Nat × ThermostatConfig)) :
    List Fire :=
  (processIntents s events).2 ++ finishPending (processIntents s events).1

/-- The single-slot invariant of reachable coordinator states: the retained
timer, when live, has deadline `last + UPDATE_MARGIN`, where `last` is the
time of the intent that scheduled it. -/
def pendingInv (s : CoordState) : Prop :=
  s.pending = none ∨ s.pending = some (s.last + UPDATE_MARGIN)

instance (s : CoordState) : Decidable (pendingInv s) := by
  unfold pendingInv; infer_instance

/-- `prev < t` for each successive intent time: the times are strictly
increasing starting strictly after `prev`. -/
def timesIncreasing : Nat → List (Nat × ThermostatConfig) → Bool
  | _, [] => true
  | prev, (t, _) :: rest => decide (prev < t) && timesIncreasing t rest

/-- A burst relative to a reference time `prev`: strictly increasing times,
each less than `UPDATE_MARGIN` after the previous one. -/
def burstFromB : Nat → List (Nat × ThermostatConfig) → Bool
  | _, [] => true
  | prev, (t, _) :: rest =>
      decide (prev < t) && decide (t - prev < UPDATE_MARGIN) && burstFromB t rest

/-- The escape key text matched by `on_key_pressed` (src/main.rs line 170). -/
def escapeText : String := "\x1b"

/-- The force-toggle key text (src/main.rs line 174). -/
def fKeyText : String := "f"

/-- The up-arrow key text (src/main.rs line 180). -/
def upArrowText : String := "\uF700"

/-- The down-arrow key text (src/main.rs line 186). -/
def downArrowText : String := "\uF701"

/-- `modify_config` (src/main.rs lines 245-253): reads the config from the
store, applies the edit, writes it back, and calls `update_config`, which
sends one PATCH request carrying the new config. Returns the new store and
the list of outbound requests sent (always exactly one). -/
def modify_config (ui : Singletons) (f : ThermostatConfig → ThermostatConfig) :
    Singletons × List ThermostatConfig :=
  let cfg := ThermostatConfig.fromConfig ui.config
  let cfg := f cfg
  ({ ui with config := Config.fromThermostatConfig cfg }, [cfg])

/-- `EventResult` of the slint key handler. -/
inductive EventResult where
  | Accept
  | Reject
  deriving DecidableEq, Repr

/-- The `on_key_pressed` handler of `register_key_handler` (src/main.rs
lines 165-195): escape hides the window, `f` toggles `force`, the arrow
keys step `target_temp` by `TEMPERATURE_STEP`; every config-modifying key
goes through `modify_config` and therefore sends one PATCH request. Returns
the new store, the outbound requests sent, and the event result. -/
def on_key_pressed (ui : Singletons) (text : String) :
    Singletons × List ThermostatConfig × EventResult :=
  if text = escapeText then
    (ui, [], EventResult.Accept)
  else if text = fKeyText then
    let r := modify_config ui (fun cfg => { cfg with force := !cfg.force })
    (r.1, r.2, EventResult.Accept)
  else if text = upArrowText then
    let r := modify_config ui
      (fun cfg => { cfg with target_temp := cfg.target_temp + TEMPERATURE_STEP })
    (r.1, r.2, EventResult.Accept)
  else if text = downArrowText then
    let r := modify_config ui
      (fun cfg => { cfg with target_temp := cfg.target_temp - TEMPERATURE_STEP })
    (r.1, r.2, EventResult.Accept)
  else
    (ui, [], EventResult.Reject)

/-- Whether a key press reaches `modify_config` (and therefore sends a
request): mirrors the dispatch order of `on_key_pressed`. -/
def isConfigKey (text : String) : Bool :=
  if text = escapeText then false
  else if text = fKeyText then true
  else if text = upArrowText then true
  else if text = downArrowText then true
  else false

/-- A stream of key presses delivered to `on_key_pressed`, threading the
store and collecting every outbound request sent. -/
def runKeyPresses (ui : Singletons) : List String → Singletons × List ThermostatConfig
  | [] => (ui, [])
  | t :: rest =>
    let r := on_key_pressed ui t
    let r' := runKeyPresses r.1 rest
    (r'.1, r.2.1 ++ r'.2)

/-! Concrete fixtures used by witnesses and counterexamples. -/

/-- A concrete thermostat config. -/
def tcA : ThermostatConfig :=
  { master_switch := true, force := false, target_temp := 21, co2_target := none }

/-- A second concrete thermostat config. -/
def tcB : ThermostatConfig :=
  { master_switch := true, force := false, target_temp := 22, co2_target := none }

/-- A third concrete thermostat config. -/
def tcC : ThermostatConfig :=
  { master_switch := true, force := false, target_temp := 23, co2_target := some 600 }

/-- A fourth concrete thermostat config. -/
def tcD : ThermostatConfig :=
  { master_switch := false, force := true, target_temp := 24, co2_target := some 700 }

/-- A concrete UI store. -/
def ui0 : Singletons :=
  { config := Config.fromThermostatConfig tcA
    state := { available := true, current_temp := 20, co2 := 450, is_heating := false } }

/-- A concrete coordinator start state: the handler was just registered
(`last = Instant::now()` at registration, taken as time 0), no task
retained. -/
def sInit : CoordState := { last := 0, pending := none, cfg := tcA }

/-- Concrete corrupt options-file contents. -/
def corruptRaw : String := "this is not valid JSON"

/-- The parse-error message produced by deserializing `corruptRaw`. -/
def parseErrMsg : String := "expected value at line 1 column 1"

/-- A concrete deserializer behaviour on corrupt contents: the input fails
to parse, as `serde_json::from_str` does on `corruptRaw`. -/
def badOptionsParse : String → Except String Options :=
  fun _ => Except.error parseErrMsg

end Thermostat

namespace Thermostat

/-! Helper lemmas about the debounce coordinator. -/

theorem runCoordinator_nil (s : CoordState) :
    runCoordinator s [] = finishPending s := rfl

theorem processIntents_cons (s : CoordState) (t : Nat) (c : ThermostatConfig)
    (es : List (Nat × ThermostatConfig)) :
    processIntents s ((t, c) :: es) =
      ((processIntents (on_request_config_change s t c).1 es).1,
        (on_request_config_change s t c).2 ++
          (processIntents (on_request_config_change s t c).1 es).2) := rfl

theorem runCoordinator_cons (s : CoordState) (t : Nat) (c : ThermostatConfig)
    (es : List (Nat × ThermostatConfig)) :
    runCoordinator s ((t, c) :: es) =
      (on_request_config_change s t c).2 ++
        runCoordinator (on_request_config_change s t c).1 es := by
  simp [runCoordinator, processIntents_cons, List.append_assoc]

theorem step_last (s : CoordState) (t : Nat) (c : ThermostatConfig) :
    (on_request_config_change s t c).1.last = t := by
  unfold on_request_config_change
  dsimp only
  split <;> rfl

theorem step_pendingInv (s : CoordState) (t : Nat) (c : ThermostatConfig) :
    pendingInv (on_request_config_change s t c).1 := by
  unfold on_request_config_change pendingInv
  dsimp only
  split
  · right; rfl
  · left; rfl

theorem step_fires_bound (s : CoordState) (t : Nat) (c : ThermostatConfig)
    (hP : pendingInv s) (hlt : s.last < t) :
    ∀ f ∈ (on_request_config_change s t c).2, s.last + UPDATE_MARGIN ≤ f.time := by
  intro f hf
  rcases hP with h | h <;> by_cases hd : t - s.last < UPDATE_MARGIN <;>
    simp [on_request_config_change, h, hd] at hf
  · subst hf; dsimp only; omega
  · by_cases hflush : s.last + UPDATE_MARGIN < t <;> simp [hflush] at hf
    subst hf; dsimp only; omega
  · by_cases hflush : s.last + UPDATE_MARGIN < t <;> simp [hflush] at hf
    · rcases hf with hf | hf <;> subst hf <;> dsimp only <;> omega
    · subst hf; dsimp only; omega

theorem fires_lower_bound :
    ∀ (es : List (Nat × ThermostatConfig)) (s : CoordState),
      pendingInv s → timesIncreasing s.last es = true →
      ∀ f ∈ runCoordinator s es, s.last + UPDATE_MARGIN ≤ f.time := by
  intro es
  induction es with
  | nil =>
    intro s hP _ f hf
    rw [runCoordinator_nil] at hf
    rcases hP with h | h <;> simp [finishPending, h] at hf
    subst hf; dsimp only; omega
  | cons e es ih =>
    obtain ⟨t, c⟩ := e
    intro s hP hinc f hf
    simp only [timesIncreasing, Bool.and_eq_true, decide_eq_true_eq] at hinc
    obtain ⟨hlt, hrest⟩ := hinc
    rw [runCoordinator_cons, List.mem_append] at hf
    cases hf with
    | inl h1 => exact step_fires_bound s t c hP hlt f h1
    | inr h2 =>
      have hlast := step_last s t c
      have hP' := step_pendingInv s t c
      have hrec := ih (on_request_config_change s t c).1 hP'
        (by rw [hlast]; exact hrest) f h2
      rw [hlast] at hrec
      omega

theorem step_in_burst (s : CoordState) (t : Nat) (c : ThermostatConfig)
    (hP : pendingInv s) (hle : s.last ≤ t) (hgap : t - s.last < UPDATE_MARGIN) :
    on_request_config_change s t c =
      ({ last := t, pending := some (t + UPDATE_MARGIN), cfg := c }, []) := by
  have hnoflush : ¬ (s.last + UPDATE_MARGIN < t) := by omega
  rcases hP with h | h <;> simp [on_request_config_change, h, hgap, hnoflush]

theorem burst_quiet :
    ∀ (es : List (Nat × ThermostatConfig)) (s : CoordState),
      pendingInv s → burstFromB s.last es = true →
      (processIntents s es).2 = [] ∧ pendingInv (processIntents s es).1 := by
  intro es
  induction es with
  | nil => intro s hP _; exact ⟨rfl, hP⟩
  | cons e es ih =>
    obtain ⟨t, c⟩ := e
    intro s hP hb
    simp only [burstFromB, Bool.and_eq_true, decide_eq_true_eq] at hb
    obtain ⟨⟨hlt, hgap⟩, hrest⟩ := hb
    rw [processIntents_cons, step_in_burst s t c hP (le_of_lt hlt) hgap]
    dsimp only
    obtain ⟨h2, hPfin⟩ :=
      ih { last := t, pending := some (t + UPDATE_MARGIN), cfg := c } (Or.inr rfl) hrest
    exact ⟨by simp [h2], hPfin⟩

theorem step_fires_of_pending_none (s : CoordState) (t : Nat)
    (c : ThermostatConfig) (h : s.pending = none) :
    ((on_request_config_change s t c).2).length ≤ 1 := by
  by_cases hd : t - s.last < UPDATE_MARGIN <;>
    simp [on_request_config_change, h, hd]

theorem finishPending_length (s : CoordState) :
    (finishPending s).length ≤ 1 := by
  unfold finishPending
  cases s.pending <;> simp

/-- Claim C4: converting any `ThermostatConfig` to the UI `Config` form and
back yields an identical value, and in the converted form `require_co2`
equals `co2_target.isSome`, so `co2_target` is `none` exactly when the
require-CO2 toggle is off, preserved in both directions. -/
theorem C4_round_trip (c : ThermostatConfig) :
    ThermostatConfig.fromConfig (Config.fromThermostatConfig c) = c ∧
    (Config.fromThermostatConfig c).require_co2 = c.co2_target.isSome := by
  obtain ⟨ms, fo, tt, co⟩ := c
  cases co <;> simp [ThermostatConfig.fromConfig, Config.fromThermostatConfig]

/-- Claim C10: converting a UI `Config` to `ThermostatConfig` and back
yields it unchanged except that `co2_target` is forced to 500 whenever
`require_co2` is false; the round-trip is the identity exactly when
`require_co2` is true or `co2_target` already equals 500. -/
theorem C10_reverse_round_trip (g : Config) :
    Config.fromThermostatConfig (ThermostatConfig.fromConfig g) =
      { g with co2_target := if g.require_co2 then g.co2_target else 500 } ∧
    (Config.fromThermostatConfig (ThermostatConfig.fromConfig g) = g ↔
      (g.require_co2 = true ∨ g.co2_target = 500)) := by
  obtain ⟨ms, fo, tt, rc, co⟩ := g
  cases rc <;>
    simp [ThermostatConfig.fromConfig, Config.fromThermostatConfig, eq_comm]

/-- Claim C1: for change-intents at t = 0, 50, 100 and 150 ms (each less
than 250 ms after the previous one, the first at the coordinator's
registration time), exactly one outbound update fires, at
t = 150 + 250 = 400 ms, and it carries the local config as it is at fire
time: the value stored by the last edit at t = 150 ms. -/
theorem C1_debounce_coalescing (ci c0 c1 c2 c3 : ThermostatConfig) :
    runCoordinator { last := 0, pending := none, cfg := ci }
        [(0, c0), (50, c1), (100, c2), (150, c3)] =
      [{ time := 400, immediate := false, cfg := c3 }] := rfl

end Thermostat

namespace Thermostat

theorem runKeyPresses_cons (ui : Singletons) (k : String) (ks : List String) :
    runKeyPresses ui (k :: ks) =
      ((runKeyPresses (on_key_pressed ui k).1 ks).1,
        (on_key_pressed ui k).2.1 ++ (runKeyPresses (on_key_pressed ui k).1 ks).2) := rfl

theorem on_key_pressed_request_count (ui : Singletons) (k : String) :
    ((on_key_pressed ui k).2.1).length = if isConfigKey k then 1 else 0 := by
  unfold on_key_pressed isConfigKey
  split_ifs <;> simp_all [modify_config]

/-- Claim C2 (amended): a burst of change-intents delivered through the
debounced `request_config_change` callback, each less than 250 ms after the
previous one, fires at most two outbound updates regardless of the burst
length; but every `f` / up-arrow / down-arrow key press runs
`modify_config`, which sends exactly one PATCH request per press, so a
burst of N such key presses sends N outbound requests. -/
theorem C2_bounded_requests :
    (∀ (s : CoordState) (t : Nat) (c : ThermostatConfig)
        (rest : List (Nat × ThermostatConfig)),
      s.pending = none → burstFromB t rest = true →
      (runCoordinator s ((t, c) :: rest)).length ≤ 2) ∧
    (∀ (ui : Singletons) (keys : List String),
      (runKeyPresses ui keys).2.length = (keys.filter isConfigKey).length) := by
  constructor
  · intro s t c rest hpend hb
    rw [runCoordinator_cons, List.length_append]
    have h1 := step_fires_of_pending_none s t c hpend
    have hP' := step_pendingInv s t c
    have hlast := step_last s t c
    have hb' : burstFromB (on_request_config_change s t c).1.last rest = true := by
      rw [hlast]; exact hb
    obtain ⟨h2, hPf⟩ := burst_quiet rest _ hP' hb'
    have h3 : runCoordinator (on_request_config_change s t c).1 rest =
        finishPending (processIntents (on_request_config_change s t c).1 rest).1 := by
      unfold runCoordinator
      rw [h2, List.nil_append]
    rw [h3]
    have h4 := finishPending_length
      (processIntents (on_request_config_change s t c).1 rest).1
    omega
  · intro ui keys
    induction keys generalizing ui with
    | nil => rfl
    | cons k ks ih =>
      rw [runKeyPresses_cons]
      dsimp only
      rw [List.length_append, on_key_pressed_request_count, ih, List.filter_cons]
      by_cases hk : isConfigKey k <;> simp [hk, Nat.add_comm]

/-- Witness for C2 (amended): a concrete two-intent debounced burst fires
at most two updates. -/
theorem C2_bounded_requests_witness :
    sInit.pending = none ∧ burstFromB 0 [(100, tcB)] = true ∧
    (runCoordinator sInit [(0, tcA), (100, tcB)]).length ≤ 2 :=
  ⟨rfl, by decide, C2_bounded_requests.1 sInit 0 tcA [(100, tcB)] rfl (by decide)⟩

/-- Counterexample to C2 as stated: a burst of five up-arrow key presses
(arbitrarily closely spaced, since `modify_config` consults no clock before
sending) produces five outbound PATCH requests, one per press, and nine
presses produce nine: the request count grows linearly with the burst
length instead of being bounded by a constant. -/
theorem C2_counterexample :
    (runKeyPresses ui0 (List.replicate 5 upArrowText)).2.length = 5 ∧
    (runKeyPresses ui0 (List.replicate 9 upArrowText)).2.length = 9 :=
  ⟨rfl, rfl⟩

/-- Counterexample to C3 as stated: with change-intents at t = 300 ms
(fires immediately), t = 400 ms (delayed) and t = 600 ms, the intent at
t = 600 arrives 300 ms — at least the 250 ms margin — after the last fired
update at t = 300, yet it does not fire immediately: `last` was reset by
the delayed intent at t = 400, so the intent at t = 600 is delayed again
and a timer for t = 850 is retained; the run's only fires are at t = 300
and t = 850. -/
theorem C3_counterexample :
    runCoordinator sInit [(300, tcB), (400, tcC), (600, tcD)] =
      [{ time := 300, immediate := true, cfg := tcB },
        { time := 850, immediate := false, cfg := tcD }] ∧
    UPDATE_MARGIN ≤ 600 - 300 :=
  ⟨rfl, by decide⟩

/-- Claim C3 (amended): `last` is set to now by every invocation of
`on_request_config_change`, in both branches, so `elapsed` measures the
time since the previous change-intent, not since the last fired update;
consequently a change-intent arriving at least 250 ms after the previous
change-intent fires immediately and retains no timer. -/
theorem C3_immediate_fire :
    (∀ (s : CoordState) (t : Nat) (c : ThermostatConfig),
      (on_request_config_change s t c).1.last = t) ∧
    (∀ (s : CoordState) (k : Nat) (c : ThermostatConfig),
      (on_request_config_change s (s.last + UPDATE_MARGIN + k) c).1.pending = none ∧
      { time := s.last + UPDATE_MARGIN + k, immediate := true, cfg := c } ∈
        (on_request_config_change s (s.last + UPDATE_MARGIN + k) c).2) := by
  constructor
  · exact step_last
  · intro s k c
    have hd : ¬ (s.last + UPDATE_MARGIN + k - s.last < UPDATE_MARGIN) := by omega
    constructor
    · simp [on_request_config_change, hd]
    · simp [on_request_config_change, hd]

end Thermostat

namespace Thermostat

/-- Claim C5: whenever a change-intent at time `t` schedules a delayed
timer (deadline `t + 250` ms) and a subsequent change-intent arrives at
`t' < t + 250` before that timer fires, the first timer never fires: every
update of the remaining run fires strictly after `t + 250`, so no side
effect of the superseded timer ever occurs; moreover at most one live
debounce timer exists at any point, since every invocation first cancels
the old timer and retains at most the one it newly schedules. -/
theorem C5_cancellation (s : CoordState) (t t' : Nat)
    (c c' : ThermostatConfig) (post : List (Nat × ThermostatConfig))
    (hP : pendingInv s) (h0 : s.last ≤ t) (hd : t - s.last < UPDATE_MARGIN)
    (h1 : t < t') (h2 : t' < t + UPDATE_MARGIN)
    (hpost : timesIncreasing t' post = true) :
    (∀ f ∈ runCoordinator s ((t, c) :: (t', c') :: post),
      t + UPDATE_MARGIN < f.time) ∧
    (∀ (s₁ : CoordState) (t₁ : Nat) (c₁ : ThermostatConfig),
      pendingInv (on_request_config_change s₁ t₁ c₁).1) := by
  constructor
  · intro f hf
    rw [runCoordinator_cons, step_in_burst s t c hP h0 hd] at hf
    rw [List.nil_append] at hf
    have hstep2 : on_request_config_change
        { last := t, pending := some (t + UPDATE_MARGIN), cfg := c } t' c' =
        ({ last := t', pending := some (t' + UPDATE_MARGIN), cfg := c' }, []) := by
      apply step_in_burst
      · exact Or.inr rfl
      · exact le_of_lt h1
      · dsimp only; omega
    rw [runCoordinator_cons, hstep2, List.nil_append] at hf
    have hlow := fires_lower_bound post
      { last := t', pending := some (t' + UPDATE_MARGIN), cfg := c' }
      (Or.inr rfl) hpost f hf
    dsimp only at hlow
    omega
  · intro s₁ t₁ c₁
    exact step_pendingInv s₁ t₁ c₁

/-- Witness for C5: from a fresh coordinator, intents at 100 ms (schedules
a timer for 350 ms) and 200 ms (arrives before 350 ms) leave a run whose
single update — the one of the run, at 450 ms — fires strictly after
350 ms, so the superseded timer never fired. -/
theorem C5_cancellation_witness :
    pendingInv sInit ∧ sInit.last ≤ 100 ∧ 100 - sInit.last < UPDATE_MARGIN ∧
    100 < 200 ∧ 200 < 100 + UPDATE_MARGIN ∧
    timesIncreasing 200 ([] : List (Nat × ThermostatConfig)) = true ∧
    100 + UPDATE_MARGIN <
      ({ time := 450, immediate := false, cfg := tcB } : Fire).time :=
  ⟨Or.inl rfl, by decide, by decide, by decide, by decide, rfl,
    (C5_cancellation sInit 100 200 tcA tcB [] (Or.inl rfl) (by decide)
        (by decide) (by decide) (by decide) rfl).1
      { time := 450, immediate := false, cfg := tcB } (by decide)⟩

/-- Counterexample to C6 as stated: handling the response envelope with
success = true and the data field absent panics on `Option::unwrap`, so not
every combination of success with data and error present or absent
completes without panicking. -/
theorem C6_counterexample :
    try_apply_response ui0 { success := true, data := none, error := none } =
      Except.error unwrapNoneMsg := rfl

/-- Claim C6 (amended): handling an API response envelope completes without
panicking for every envelope in which success = true carries a data payload
and success = false carries an error string — with the other field
arbitrary — and a success = false envelope is logged with its carried error
string and changes nothing; a success = true envelope without data (or a
success = false envelope without an error string) panics on unwrap. -/
theorem C6_no_panic :
    (∀ (ui : Singletons) (d : APIResponseData) (e : Option String),
      try_apply_response ui { success := true, data := some d, error := e } =
        Except.ok ({ ui with state := State.fromApi d.state }, none)) ∧
    (∀ (ui : Singletons) (d : Option APIResponseData) (e : String),
      try_apply_response ui { success := false, data := d, error := some e } =
        Except.ok (ui, some e)) :=
  ⟨fun _ _ _ => rfl, fun _ _ _ => rfl⟩

/-- Claim C9: applying a successful API response (success = true, data
present) replaces the local device state wholesale with the returned state
and changes nothing else: the config field of the store is passed through
untouched and nothing is logged. -/
theorem C9_frame (ui : Singletons) (d : APIResponseData) (e : Option String) :
    try_apply_response ui { success := true, data := some d, error := e } =
      Except.ok ({ config := ui.config, state := State.fromApi d.state }, none) := rfl

/-- Claim C8: a network error on a poll tick is logged with the carried
error, leaves the store unchanged for the remaining ticks — which are then
processed exactly as they would have been — and introduces no panic, so the
fixed poll interval continues; a network error on a patch request is logged
and returns the store unchanged. -/
theorem C8_network_error_atomicity :
    (∀ (ui : Singletons) (e : String) (rest : List (Except String APIResponse)),
      start_ui_updater ui (Except.error e :: rest) =
        (start_ui_updater ui rest).map
          (fun r => (r.1, (pollErrMsg ++ e) :: r.2))) ∧
    (∀ (ui : Singletons) (e : String),
      update_config ui (Except.error e) =
        Except.ok (ui, some (patchErrMsg ++ e))) := by
  constructor
  · intro ui e rest
    have heq : start_ui_updater ui (Except.error e :: rest) =
        (start_ui_updater ui rest).bind
          (fun r => Except.ok (r.1, (pollErrMsg ++ e) :: r.2)) := rfl
    rw [heq]
    cases start_ui_updater ui rest <;> rfl
  · intro ui e
    rfl

/-- Claim C7: a missing options file falls back to `Options::default()`
(window position 190, 190 and the default app options) for any
deserializer; but an existing file whose contents fail to parse makes the
program panic — `options.unwrap()` is called on the logged `Err` — instead
of falling back to the defaults, as evaluated here at a concrete corrupt
input. -/
theorem C7_options_fallback :
    (∀ from_str : String → Except String Options,
      load_options none from_str = Except.ok Options.default) ∧
    load_options (some corruptRaw) badOptionsParse = Except.error parseErrMsg :=
  ⟨fun _ => rfl, rfl⟩

end Thermostat
